import Mathlib

/-!
Shallow embedding of the launch orchestrator of `src/tasks/launch.ts`
(the itch app). The stateful orchestrator `doStart` is modelled as a pure
function from a `World` record — holding the responses of every external
collaborator (store, manifest file, modal, API client, binary probe,
launch/prepare strategies, clock) — to an outcome (`Except JSError Unit`,
normal return vs thrown error) paired with an `Effects` trace recording
the observable side effects in the order the source performs them.
-/

/-- JS truthiness of an optional string: `undefined`/`null` and `""` are falsy. -/
def jsStrFalsy : Option String → Bool
  | none => true
  | some s => s = ""

/-- JS truthiness test used by `caveProblem` on `cave.executables`:
`!cave.executables || cave.executables.length === 0`. -/
def jsListEmpty : Option (List String) → Bool
  | none => true
  | some l => l.isEmpty

/-- The error values thrown inside `doStart`: the `Crash` and `Cancelled`
classes from `./errors`, and plain `Error` objects carrying a message and an
optional `reason` field (a list of localization parts), as built at
`launch.ts:182-184`. -/
inductive JSError where
  | crash
  | cancelled
  | generic (message : String) (reason : Option (List String))
  deriving Repr, DecidableEq

/-- The package record ("cave", `ICaveRecord`): the fields `doStart` and its
helpers read or write. Optional fields model JS properties that may be
`undefined`. -/
structure ICaveRecord where
  id : String
  launchType : Option String
  executables : Option (List String)
  gamePath : Option String
  secondsRun : Option Nat
  lastTouched : Option Nat
  deriving Repr, DecidableEq

/-- `caveProblem` (`launch.ts:71-87`): launch-type-specific readiness check.
`native` needs a non-empty executables list; `html` needs a truthy
`gamePath`; other launch types (including an undefined one) report no
problem. -/
def caveProblem (cave : ICaveRecord) : Option (List String) :=
  match cave.launchType with
  | some "native" =>
    if jsListEmpty cave.executables then
      some ["game.install.no_executables_found"]
    else none
  | some "html" =>
    if jsStrFalsy cave.gamePath then
      some ["game.install.no_html_index_found"]
    else none
  | _ => none

/-- Result of the `fnout` binary-format probe (`sniffRes` at `launch.ts:356`). -/
structure SniffResult where
  linuxExecutable : Bool
  macExecutable : Bool
  deriving Repr, DecidableEq

/-- The characters of a string, ASCII-lowercased — how a case-insensitive
(`/i`) JS regex sees its input. -/
def lowerData (s : String) : List Char :=
  s.data.map Char.toLower

/-- Case-insensitive suffix test over the characters of `s`. -/
def endsWithCI (suffix s : String) : Bool :=
  List.isSuffixOf suffix.data (lowerData s)

/-- Case-insensitive prefix test over the characters of `s`. -/
def startsWithCI (pre s : String) : Bool :=
  List.isPrefixOf pre.data (lowerData s)

/-- Case-sensitive, literal prefix test. -/
def startsWithLit (pre s : String) : Bool :=
  List.isPrefixOf pre.data s.data

/-- `/\.(app|exe|bat|sh)$/i.test(actionPath)` (`launch.ts:341`). -/
def nativeExtTest (p : String) : Bool :=
  endsWithCI ".app" p || endsWithCI ".exe" p || endsWithCI ".bat" p || endsWithCI ".sh" p

/-- `/\.html?$/i.test(actionPath)` (`launch.ts:345`). -/
def htmlExtTest (p : String) : Bool :=
  endsWithCI ".htm" p || endsWithCI ".html" p

/-- `/^https?:/i.test(actionPath)` (`launch.ts:349`): a prefix of `http:` or
`https:`, case-insensitive — the regex does not require `//`. -/
def urlPrefixTest (p : String) : Bool :=
  startsWithCI "http:" p || startsWithCI "https:" p

/-- `launchTypeForAction` (`launch.ts:340-363`). The platform string
(`os.itchPlatform()`) and the probe result for the action's full path are
passed explicitly; the function is total — no rule failure raises an
error, `"shell"` is the final fallback. -/
def launchTypeForAction (platform : String) (sniff : SniffResult)
    (actionPath : String) : String :=
  if nativeExtTest actionPath then "native"
  else if htmlExtTest actionPath then "html"
  else if urlPrefixTest actionPath then "external"
  else if (sniff.linuxExecutable && platform == "linux")
       || (sniff.macExecutable && platform == "osx") then "native"
  else "shell"

/-- `appExt` (`launch.ts:365-371`). -/
def appExt (platform : String) : String :=
  match platform with
  | "osx" => ".app"
  | "windows" => ".exe"
  | _ => ""

/-- Replace the first occurrence of the (non-empty) pattern in a character
list. -/
def replaceFirstAux (pat rep : List Char) : List Char → List Char
  | [] => []
  | c :: rest =>
    if List.isPrefixOf pat (c :: rest) then rep ++ (c :: rest).drop pat.length
    else c :: replaceFirstAux pat rep rest

/-- JS `String.prototype.replace` with a non-global regex: replace only the
first occurrence of `pat` (used for the non-empty `\x7b\x7bEXT\x7d\x7d`
placeholder at `launch.ts:250`). -/
def replaceFirst (s pat rep : String) : String :=
  String.mk (replaceFirstAux pat.data rep.data s.data)

/-- A manifest action (`IManifestAction`): `{name, path, icon?, args?, scope?}`. -/
structure IManifestAction where
  name : Option String
  path : String
  icon : Option String
  args : Option (List String)
  scope : Option String
  deriving Repr, DecidableEq

/-- A parsed manifest: an ordered list of actions. -/
structure IManifest where
  actions : List IManifestAction
  deriving Repr, DecidableEq

/-- Modelled from the spec: `validateManifest`
(`src/tasks/launch/validate-manifest`, imported at `launch.ts:10` but not
included under src/) — "Validate the parsed structure (at minimum: an
`actions` list exists; each action has a non-empty `name`) — a validation
failure throws immediately, aborting launch." The actions list existing is
structural here; each action must have a truthy name. -/
def validateManifest (m : IManifest) : Except JSError Unit :=
  if m.actions.all (fun a => !jsStrFalsy a.name) then Except.ok ()
  else Except.error (JSError.generic "manifest validation failed" none)

/-- The user's answer to the multi-action choice modal
(`promisedModal` at `launch.ts:229-241`): either a `MODAL_RESPONSE` carrying
`payload.manifestActionName`, or anything else (treated as cancellation). -/
inductive ModalResponse where
  | modalResponse (manifestActionName : String)
  | cancelledResponse
  deriving Repr, DecidableEq

/-- A scoped subkey from the API client (`client.subkey`, `launch.ts:256`). -/
structure Subkey where
  key : String
  expiresAt : String
  deriving Repr, DecidableEq

/-- underscore's `findWhere(manifest.actions, {name})` (`launch.ts:238`):
first action whose `name` equals the given one, if any. -/
def findWhere (actionList : List IManifestAction) (name : String) :
    Option IManifestAction :=
  actionList.find? (fun a => a.name = some name)

/-- Index-carrying scan for an action with a falsy `name`. -/
def firstNamelessFrom (i : Nat) : List IManifestAction → Option Nat
  | [] => none
  | a :: rest =>
    if jsStrFalsy a.name then some i else firstNamelessFrom (i + 1) rest

/-- First index of an action with a falsy `name`, mirroring the `each` loop
at `launch.ts:215-225` which throws at the first such action. -/
def firstNamelessIndex (actionList : List IManifestAction) : Option Nat :=
  firstNamelessFrom 0 actionList

/-- The external world of one `doStart` call: the response of every
collaborator the orchestrator awaits, and the values `Date.now()` yields at
each of its call sites. `configuredCave` is the store's record for
`cave.id` after the one-shot `configure` task (`launch.ts:169-176`). -/
structure World where
  cave : ICaveRecord
  action : String
  configuredCave : ICaveRecord
  hasManifest : Bool
  manifestParse : Except JSError IManifest
  modalResponse : ModalResponse
  subkey : Subkey
  platform : String
  sniff : SniffResult
  prepareResult : Except JSError Unit
  launcherResult : Except JSError Unit
  preventDisplaySleep : Bool
  blockerId : Nat
  openNow : Nat
  startedAt : Nat
  catchNow : Nat
  finallyNow : Nat

/-- Trace of the observable side effects of one `doStart` call. -/
structure Effects where
  openTouch : Bool := false
  configureCount : Nat := 0
  manifestProbe : Bool := false
  manifestRead : Bool := false
  promptShown : Bool := false
  selectedAction : Option IManifestAction := none
  launchTypeUsed : Option String := none
  subkeyRequested : Bool := false
  preparedEnv : Option (List (String × String)) := none
  preDispatchTouch : Bool := false
  timerStarted : Bool := false
  lockAcquired : Bool := false
  dispatched : Bool := false
  dispatchedEnv : Option (List (String × String)) := none
  dispatchedArgs : Option (List String) := none
  timerCleared : Nat := 0
  stopCalls : List Nat := []
  finallyTouches : List Nat := []
  deriving Repr, DecidableEq

/-- Outcome of the manifest-resolution block (`launch.ts:198-247`). -/
inductive ManifestOutcome where
  | noManifest
  | threw (e : JSError)
  | cancelledByUser
  | selected (a : Option IManifestAction)
  deriving Repr, DecidableEq

/-- `in manifest, action ${i} is missing a name` (`launch.ts:217`). -/
def missingNameMsg (i : Nat) : String :=
  s!"in manifest, action {i} is missing a name"

/-- `The game could not be configured (${problem})` (`launch.ts:182`);
JS string interpolation joins an array with commas. -/
def couldNotConfigureMsg (problem : List String) : String :=
  let ps := String.intercalate "," problem
  s!"The game could not be configured ({ps})"

/-- JS string interpolation of a possibly-undefined value. -/
def optionStr : Option String → String
  | none => "undefined"
  | some s => s

/-- `Unsupported launch type '${cave.launchType}'` (`launch.ts:281`). -/
def unsupportedMsg (lt : Option String) : String :=
  let l := optionStr lt
  s!"Unsupported launch type \x27{l}\x27"

/-- The manifest-resolution block (`launch.ts:198-247`): read and parse the
manifest if present (a failure propagates), validate it, then select an
action — directly when `actions.length ≤ 1` (`actions[0]`, which is
`undefined` for an empty list), else via the choice modal, whose
non-`MODAL_RESPONSE` answer means user cancellation. The second component
records whether the choice prompt was shown. -/
def resolveManifestAction (w : World) : ManifestOutcome × Bool :=
  if w.hasManifest then
    match w.manifestParse with
    | Except.error e => (ManifestOutcome.threw e, false)
    | Except.ok manifest =>
      match validateManifest manifest with
      | Except.error e => (ManifestOutcome.threw e, false)
      | Except.ok () =>
        if manifest.actions.length > 1 then
          match firstNamelessIndex manifest.actions with
          | some i => (ManifestOutcome.threw (JSError.generic (missingNameMsg i) none), false)
          | none =>
            match w.modalResponse with
            | ModalResponse.modalResponse name =>
              (ManifestOutcome.selected (findWhere manifest.actions name), true)
            | ModalResponse.cancelledResponse => (ManifestOutcome.cancelledByUser, true)
        else
          (ManifestOutcome.selected (manifest.actions.get? 0), false)
  else (ManifestOutcome.noManifest, false)

/-- Result of the `if (manifestAction)` block (`launch.ts:249-271`):
the (path-substituted) selected action, the effective launch type, the run
environment and argument list handed to the dispatcher. -/
structure ActionResolution where
  selected : Option IManifestAction
  launchType : String
  env : List (String × String)
  args : List String
  subkeyRequested : Bool
  deriving Repr, DecidableEq

/-- `launch.ts:249-271`: when an action was selected, substitute the
`{{EXT}}` placeholder (first occurrence), classify the launch type from the
substituted path, request a scoped subkey when `scope` is truthy (writing
`ITCHIO_API_KEY` and `ITCHIO_API_KEY_EXPIRES_AT` into the environment), and
collect the action's args. With no selected action the launch type stays
the one destructured from the pre-repair cave record (`launch.ts:164`). -/
def processManifestAction (w : World) (launchType0 : String)
    (sel : Option IManifestAction) : ActionResolution :=
  match sel with
  | some a =>
    let path2 := replaceFirst a.path "{{EXT}}" (appExt w.platform)
    let lt := launchTypeForAction w.platform w.sniff path2
    let env := if jsStrFalsy a.scope then []
               else [("ITCHIO_API_KEY", w.subkey.key),
                     ("ITCHIO_API_KEY_EXPIRES_AT", w.subkey.expiresAt)]
    { selected := some { a with path := path2 }, launchType := lt, env := env,
      args := a.args.getD [], subkeyRequested := !jsStrFalsy a.scope }
  | none =>
    { selected := none, launchType := launchType0, env := [], args := [],
      subkeyRequested := false }

/-- The launcher table (`launch.ts:273-278`) has exactly these four keys. -/
def launcherSupported (lt : String) : Bool :=
  lt = "native" || lt = "html" || lt = "shell" || lt = "external"

/-- `(Date.now() - startedAt) / 1000` at `launch.ts:316`, as an exact
rational number of seconds. -/
def secondsRunning (w : World) : ℚ :=
  ((w.catchNow : ℚ) - (w.startedAt : ℚ)) / 1000

/-- The catch block (`launch.ts:313-329`): a `Crash` more than 2 seconds
after `startedAt` returns normally (late crash); a crash at or below 2
seconds falls through the `Cancelled` test and is re-thrown; a `Cancelled`
returns normally; anything else is re-thrown. -/
def catchClassify (w : World) (e : JSError) : Except JSError Unit :=
  match e with
  | JSError.crash =>
    if secondsRunning w > 2 then Except.ok () else Except.error JSError.crash
  | JSError.cancelled => Except.ok ()
  | e => Except.error e

/-- `UPDATE_PLAYTIME_INTERVAL` (`launch.ts:299`). -/
def UPDATE_PLAYTIME_INTERVAL : Nat := 10

/-- One playtime tick (`launch.ts:302-307`): re-read the stored record's
`secondsRun` (missing counts as 0), add the fixed interval, and save the
sum with a fresh `lastTouched`; `saveEntity` merges fields, leaving the
rest of the record unchanged. -/
def playtimeTick (now : Nat) (c : ICaveRecord) : ICaveRecord :=
  { c with secondsRun := some (UPDATE_PLAYTIME_INTERVAL + (c.secondsRun.getD 0)),
           lastTouched := some now }

/-- `launch.ts:295-337`: the pre-dispatch `lastTouched` write, then the
try/catch/finally region — the playtime timer starts, the idle-sleep lock
is taken exactly when `preventDisplaySleep` is set, the launcher runs (its
error going through the catch block), and the finally clause clears the
timer, stops the lock only when one was acquired, and writes `lastTouched`
once more. -/
def dispatchWrapped (w : World) (res : ActionResolution) (eff : Effects) :
    Except JSError Unit × Effects :=
  let blockerIdOpt : Option Nat :=
    if w.preventDisplaySleep then some w.blockerId else none
  let tryRes : Except JSError Unit :=
    match w.launcherResult with
    | Except.ok () => Except.ok ()
    | Except.error e => catchClassify w e
  (tryRes,
   { eff with
     preDispatchTouch := true,
     timerStarted := true,
     lockAcquired := w.preventDisplaySleep,
     dispatched := true,
     dispatchedEnv := some res.env,
     dispatchedArgs := some res.args,
     timerCleared := 1,
     stopCalls := blockerIdOpt.toList,
     finallyTouches := [w.finallyNow] })

/-- `launch.ts:249-337`: action processing, launcher lookup (a missing
launcher for the (possibly pre-repair, defaulted) launch type is fatal,
its message naming the reloaded cave's recorded launch type), the optional
prepare step (only `native` has one; its error propagates before the
try/finally region exists), then the wrapped dispatch. -/
def afterManifest (w : World) (cave2 : ICaveRecord) (cfgCount : Nat)
    (shown : Bool) (sel : Option IManifestAction) :
    Except JSError Unit × Effects :=
  let launchType0 := w.cave.launchType.getD "native"
  let res := processManifestAction w launchType0 sel
  let eff1 : Effects :=
    { configureCount := cfgCount, manifestProbe := true,
      manifestRead := w.hasManifest, promptShown := shown,
      selectedAction := res.selected, launchTypeUsed := some res.launchType,
      subkeyRequested := res.subkeyRequested }
  if launcherSupported res.launchType then
    if res.launchType = "native" then
      let eff2 := { eff1 with preparedEnv := some res.env }
      match w.prepareResult with
      | Except.error e => (Except.error e, eff2)
      | Except.ok () => dispatchWrapped w res eff2
    else
      dispatchWrapped w res eff1
  else
    (Except.error (JSError.generic (unsupportedMsg cave2.launchType) none), eff1)

/-- The cave record in scope after the repair block (`launch.ts:166-177`):
when the first readiness check found a problem, the `configure` task ran
and the record was reloaded from the store; otherwise the original record
stands. -/
def caveAfterRepair (w : World) : ICaveRecord :=
  match caveProblem w.cave with
  | some _ => w.configuredCave
  | none => w.cave

/-- `doStart` (`launch.ts:144-338`): the launch orchestrator, as a pure
function of the `World`. The "open" action short-circuits with a
`lastTouched` write; otherwise readiness is checked, repaired at most once
(reloading the record from the store), re-checked (a persisting problem is
fatal, its `reason` carrying the problem token); then the manifest block, a
user cancellation returning silently; then action processing, prepare, and
the wrapped dispatch. -/
def doStart (w : World) : Except JSError Unit × Effects :=
  if w.action = "open" then
    (Except.ok (), { openTouch := true })
  else
    let cave2 := caveAfterRepair w
    let cfgCount := match caveProblem w.cave with
      | some _ => 1
      | none => 0
    match caveProblem cave2 with
    | some problem =>
      (Except.error (JSError.generic (couldNotConfigureMsg problem) (some problem)),
       { configureCount := cfgCount })
    | none =>
      let mres := resolveManifestAction w
      match mres.1 with
      | ManifestOutcome.threw e =>
        (Except.error e,
         { configureCount := cfgCount, manifestProbe := true,
           manifestRead := w.hasManifest, promptShown := mres.2 })
      | ManifestOutcome.cancelledByUser =>
        (Except.ok (),
         { configureCount := cfgCount, manifestProbe := true,
           manifestRead := w.hasManifest, promptShown := mres.2 })
      | ManifestOutcome.noManifest =>
        afterManifest w cave2 cfgCount mres.2 none
      | ManifestOutcome.selected a =>
        afterManifest w cave2 cfgCount mres.2 a

/-- The Launch-Type Classifier exactly as the claim words it, for comparison
with `launchTypeForAction`: identical rules except that rule 3 requires the
path to begin with a literal `http://` or `https://`. -/
def claimedLaunchTypeForAction (platform : String) (sniff : SniffResult)
    (actionPath : String) : String :=
  if nativeExtTest actionPath then "native"
  else if htmlExtTest actionPath then "html"
  else if startsWithLit "http://" actionPath || startsWithLit "https://" actionPath then "external"
  else if (sniff.linuxExecutable && platform == "linux")
       || (sniff.macExecutable && platform == "osx") then "native"
  else "shell"

/-- The two reserved environment keys with their values (`launch.ts:258-259`). -/
def scopedEnv (w : World) : List (String × String) :=
  [("ITCHIO_API_KEY", w.subkey.key),
   ("ITCHIO_API_KEY_EXPIRES_AT", w.subkey.expiresAt)]

/-- A launch-ready native cave record. -/
def exeCave : ICaveRecord :=
  { id := "cave-1", launchType := some "native", executables := some ["run.exe"],
    gamePath := none, secondsRun := none, lastTouched := none }

/-- A native cave record with no discovered executables (not launch-ready). -/
def badCave : ICaveRecord :=
  { id := "cave-1", launchType := some "native", executables := none,
    gamePath := none, secondsRun := none, lastTouched := none }

/-- A baseline world: launch-ready native cave, no manifest, successful
prepare and launch, idle-sleep prevention requested, dispatch at t=1000ms. -/
def baseWorld : World :=
  { cave := exeCave, action := "launch", configuredCave := exeCave,
    hasManifest := false,
    manifestParse := Except.error (JSError.generic "unread" none),
    modalResponse := ModalResponse.cancelledResponse,
    subkey := { key := "subkey-value", expiresAt := "2026-01-01T00:00:00Z" },
    platform := "linux",
    sniff := { linuxExecutable := false, macExecutable := false },
    prepareResult := Except.ok (), launcherResult := Except.ok (),
    preventDisplaySleep := true, blockerId := 7,
    openNow := 5, startedAt := 1000, catchNow := 1500, finallyNow := 9000 }

/-- Baseline world whose launcher throws `Crash` 2.1 seconds after dispatch. -/
def crash21World : World :=
  { baseWorld with launcherResult := Except.error JSError.crash, catchNow := 3100 }

/-- Baseline world whose launcher throws `Crash` 1.9 seconds after dispatch. -/
def crash19World : World :=
  { baseWorld with launcherResult := Except.error JSError.crash, catchNow := 2900 }

/-- Baseline world whose launcher throws `Crash` 0.5 seconds after dispatch. -/
def crashHalfWorld : World :=
  { baseWorld with launcherResult := Except.error JSError.crash, catchNow := 1500 }

/-- Baseline world whose launcher throws `Cancelled`. -/
def cancelThrowWorld : World :=
  { baseWorld with launcherResult := Except.error JSError.cancelled }

/-- Baseline world whose cave needs repair and whose repair does not help. -/
def stillBrokenWorld : World :=
  { baseWorld with cave := badCave, configuredCave := badCave }

/-- A manifest action with a credential scope. -/
def playAction : IManifestAction :=
  { name := some "play", path := "game.exe", icon := none,
    args := some ["--full"], scope := some "download" }

/-- A second, scopeless manifest action. -/
def editorAction : IManifestAction :=
  { name := some "editor", path := "ed.sh", icon := none,
    args := none, scope := none }

/-- A manifest holding exactly one action. -/
def singleManifest : IManifest :=
  { actions := [playAction] }

/-- A manifest holding two actions. -/
def twoManifest : IManifest :=
  { actions := [playAction, editorAction] }

/-- Baseline world with a single-action manifest. -/
def singleManifestWorld : World :=
  { baseWorld with
    hasManifest := true,
    manifestParse := Except.ok singleManifest }

/-- Baseline world with a two-action manifest where the user cancels the
choice modal. -/
def cancelModalWorld : World :=
  { baseWorld with
    hasManifest := true,
    manifestParse := Except.ok twoManifest,
    modalResponse := ModalResponse.cancelledResponse }

/-- Broken-even-after-repair world that also has a valid manifest on disk. -/
def stillBrokenManifestWorld : World :=
  { stillBrokenWorld with
    hasManifest := true,
    manifestParse := Except.ok singleManifest }

theorem dispatchWrapped_fst (w : World) (res : ActionResolution) (eff : Effects) :
    (dispatchWrapped w res eff).1 =
      (match w.launcherResult with
       | Except.ok () => Except.ok ()
       | Except.error e => catchClassify w e) := rfl

theorem dispatchWrapped_snd (w : World) (res : ActionResolution) (eff : Effects) :
    (dispatchWrapped w res eff).2 =
      { eff with
        preDispatchTouch := true,
        timerStarted := true,
        lockAcquired := w.preventDisplaySleep,
        dispatched := true,
        dispatchedEnv := some res.env,
        dispatchedArgs := some res.args,
        timerCleared := 1,
        stopCalls := if w.preventDisplaySleep then [w.blockerId] else [],
        finallyTouches := [w.finallyNow] } := by
  by_cases h : w.preventDisplaySleep <;> simp [dispatchWrapped, h]

theorem afterManifest_configureCount (w : World) (cave2 : ICaveRecord)
    (cfg : Nat) (shown : Bool) (sel : Option IManifestAction) :
    (afterManifest w cave2 cfg shown sel).2.configureCount = cfg := by
  unfold afterManifest
  rcases hp : w.prepareResult with _ | e <;>
    simp only [hp] <;>
    split <;> (try split) <;> simp [dispatchWrapped_snd]

theorem afterManifest_promptShown (w : World) (cave2 : ICaveRecord)
    (cfg : Nat) (shown : Bool) (sel : Option IManifestAction) :
    (afterManifest w cave2 cfg shown sel).2.promptShown = shown := by
  unfold afterManifest
  rcases hp : w.prepareResult with _ | e <;>
    simp only [hp] <;>
    split <;> (try split) <;> simp [dispatchWrapped_snd]

theorem afterManifest_selectedAction (w : World) (cave2 : ICaveRecord)
    (cfg : Nat) (shown : Bool) (sel : Option IManifestAction) :
    (afterManifest w cave2 cfg shown sel).2.selectedAction =
      (processManifestAction w (w.cave.launchType.getD "native") sel).selected := by
  unfold afterManifest
  rcases hp : w.prepareResult with _ | e <;>
    simp only [hp] <;>
    split <;> (try split) <;> simp [dispatchWrapped_snd]

theorem afterManifest_dispatched (w : World) (cave2 : ICaveRecord)
    (cfg : Nat) (shown : Bool) (sel : Option IManifestAction)
    (h : (afterManifest w cave2 cfg shown sel).2.dispatched = true) :
    ∃ eff : Effects,
      afterManifest w cave2 cfg shown sel =
        dispatchWrapped w (processManifestAction w (w.cave.launchType.getD "native") sel) eff ∧
      eff.selectedAction =
        (processManifestAction w (w.cave.launchType.getD "native") sel).selected ∧
      eff.preparedEnv =
        (if (processManifestAction w (w.cave.launchType.getD "native") sel).launchType = "native"
         then some (processManifestAction w (w.cave.launchType.getD "native") sel).env
         else none) := by
  unfold afterManifest at h ⊢
  rcases hp : w.prepareResult with _ | e <;>
    simp only [hp] at h ⊢
  · split at h
    case isTrue hs =>
      split at h
      case isTrue hn => simp at h
      case isFalse hn =>
        rw [if_pos hs, if_neg hn]
        exact ⟨_, rfl, rfl, by simp [hn]⟩
    case isFalse hs =>
      simp at h
  · split at h
    case isTrue hs =>
      split at h
      case isTrue hn =>
        rw [if_pos hs, if_pos hn]
        exact ⟨_, rfl, rfl, by simp [hn]⟩
      case isFalse hn =>
        rw [if_pos hs, if_neg hn]
        exact ⟨_, rfl, rfl, by simp [hn]⟩
    case isFalse hs =>
      simp at h

theorem doStart_dispatched (w : World)
    (h : (doStart w).2.dispatched = true) :
    ∃ (sel : Option IManifestAction) (eff : Effects),
      doStart w =
        dispatchWrapped w (processManifestAction w (w.cave.launchType.getD "native") sel) eff ∧
      eff.selectedAction =
        (processManifestAction w (w.cave.launchType.getD "native") sel).selected ∧
      eff.preparedEnv =
        (if (processManifestAction w (w.cave.launchType.getD "native") sel).launchType = "native"
         then some (processManifestAction w (w.cave.launchType.getD "native") sel).env
         else none) := by
  by_cases ha : w.action = "open"
  · simp [doStart, ha] at h
  · rcases hcp : caveProblem (caveAfterRepair w) with _ | prob
    · rcases hm : resolveManifestAction w with ⟨mo, shown⟩
      cases mo with
      | threw e => simp [doStart, ha, hcp, hm] at h
      | cancelledByUser => simp [doStart, ha, hcp, hm] at h
      | noManifest =>
        simp only [doStart] at h ⊢
        simp [ha, hcp, hm] at h ⊢
        obtain ⟨eff, h1, h2, h3⟩ :=
          afterManifest_dispatched w (caveAfterRepair w) _ shown none h
        exact ⟨none, eff, h1, h2, h3⟩
      | selected a =>
        simp only [doStart] at h ⊢
        simp [ha, hcp, hm] at h ⊢
        obtain ⟨eff, h1, h2, h3⟩ :=
          afterManifest_dispatched w (caveAfterRepair w) _ shown a h
        exact ⟨a, eff, h1, h2, h3⟩
    · simp [doStart, ha, hcp] at h

theorem doStart_configureCount_le (w : World) :
    (doStart w).2.configureCount ≤ 1 := by
  by_cases ha : w.action = "open"
  · simp [doStart, ha]
  · rcases hcp : caveProblem (caveAfterRepair w) with _ | prob
    · rcases hm : resolveManifestAction w with ⟨mo, shown⟩
      rcases hc : caveProblem w.cave with _ | p
      all_goals cases mo <;>
        simp [doStart, ha, hcp, hm, hc, afterManifest_configureCount]
    · rcases hc : caveProblem w.cave with _ | p <;>
        simp [doStart, ha, hcp, hc]

theorem validateManifest_ok_names (m : IManifest)
    (h : validateManifest m = Except.ok ()) :
    m.actions.all (fun a => !jsStrFalsy a.name) = true := by
  by_cases hb : m.actions.all (fun a => !jsStrFalsy a.name)
  · exact hb
  · simp [validateManifest, hb] at h

theorem firstNamelessFrom_none (l : List IManifestAction)
    (h : l.all (fun a => !jsStrFalsy a.name) = true) :
    ∀ i, firstNamelessFrom i l = none := by
  induction l with
  | nil => intro i; rfl
  | cons a rest ih =>
    intro i
    rw [List.all_cons, Bool.and_eq_true] at h
    have h1 : jsStrFalsy a.name = false := by
      cases hx : jsStrFalsy a.name
      · rfl
      · rw [hx] at h; simp at h
    simp [firstNamelessFrom, h1, ih h.2]

theorem processManifestAction_env (w : World) (lt0 : String)
    (sel : Option IManifestAction) (a : IManifestAction)
    (h : (processManifestAction w lt0 sel).selected = some a) :
    (processManifestAction w lt0 sel).env =
      (if jsStrFalsy a.scope then [] else scopedEnv w) := by
  cases sel with
  | none => simp [processManifestAction] at h
  | some a0 =>
    simp only [processManifestAction, Option.some.injEq] at h
    subst h
    simp [processManifestAction, scopedEnv]

/-- C1: every launch call that reaches dispatch runs cleanup exactly once on
every exit path: the playtime timer is cleared exactly once, the idle-sleep
lock is acquired exactly when `preventDisplaySleep` is set and stopped
exactly once then and never otherwise (a null token is never released), and
`lastTouched` is written exactly once more after dispatch settles. -/
theorem C1_cleanup_exactly_once (w : World)
    (hd : (doStart w).2.dispatched = true) :
    (doStart w).2.timerCleared = 1 ∧
    (doStart w).2.lockAcquired = w.preventDisplaySleep ∧
    (doStart w).2.stopCalls =
      (if w.preventDisplaySleep then [w.blockerId] else []) ∧
    (doStart w).2.finallyTouches = [w.finallyNow] := by
  obtain ⟨sel, eff, heq, -, -⟩ := doStart_dispatched w hd
  rw [heq, dispatchWrapped_snd]
  by_cases hp : w.preventDisplaySleep <;> simp [hp]

/-- C1 witness: the baseline world reaches dispatch and its cleanup trace is
as the theorem states. -/
theorem C1_cleanup_exactly_once_witness :
    (doStart baseWorld).2.dispatched = true ∧
    ((doStart baseWorld).2.timerCleared = 1 ∧
     (doStart baseWorld).2.lockAcquired = baseWorld.preventDisplaySleep ∧
     (doStart baseWorld).2.stopCalls =
       (if baseWorld.preventDisplaySleep then [baseWorld.blockerId] else []) ∧
     (doStart baseWorld).2.finallyTouches = [baseWorld.finallyNow]) :=
  ⟨rfl, C1_cleanup_exactly_once baseWorld rfl⟩

/-- C2: a `Crash` from the launch strategy is swallowed (normal return) iff
the elapsed wall time since dispatch began strictly exceeds 2 seconds; at
or below 2 seconds it is re-raised. -/
theorem C2_crash_grace_boundary (w : World)
    (hd : (doStart w).2.dispatched = true)
    (hl : w.launcherResult = Except.error JSError.crash) :
    (2 < secondsRunning w → (doStart w).1 = Except.ok ()) ∧
    (secondsRunning w ≤ 2 → (doStart w).1 = Except.error JSError.crash) := by
  obtain ⟨sel, eff, heq, -, -⟩ := doStart_dispatched w hd
  constructor
  · intro hgt
    rw [heq, dispatchWrapped_fst, hl]
    simp [catchClassify, hgt]
  · intro hle
    rw [heq, dispatchWrapped_fst, hl]
    simp [catchClassify, not_lt.mpr hle]

/-- C2 witness: a crash 2.1 seconds after dispatch returns normally; one at
1.9 seconds is re-raised. -/
theorem C2_crash_grace_boundary_witness :
    ((doStart crash21World).2.dispatched = true ∧
     (doStart crash21World).1 = Except.ok ()) ∧
    ((doStart crash19World).2.dispatched = true ∧
     (doStart crash19World).1 = Except.error JSError.crash) := by
  refine ⟨⟨rfl, ?_⟩, ⟨rfl, ?_⟩⟩
  · exact (C2_crash_grace_boundary crash21World rfl rfl).1
      (by norm_num [secondsRunning, crash21World, baseWorld])
  · exact (C2_crash_grace_boundary crash19World rfl rfl).2
      (by norm_num [secondsRunning, crash19World, baseWorld])

/-- C3 counterexample: in a world whose launcher throws `Crash` 0.5 seconds
after dispatch began, the launch call does NOT return normally — it
re-raises the crash, contradicting the claim that a 0.5-second crash is
swallowed as benign. -/
theorem C3_half_second_crash_counterexample :
    (doStart crashHalfWorld).2.dispatched = true ∧
    secondsRunning crashHalfWorld = 1 / 2 ∧
    (doStart crashHalfWorld).1 = Except.error JSError.crash := by
  refine ⟨rfl, by norm_num [secondsRunning, crashHalfWorld, baseWorld], ?_⟩
  obtain ⟨sel, eff, heq, -, -⟩ := doStart_dispatched crashHalfWorld rfl
  rw [heq, dispatchWrapped_fst]
  have hlt : ¬ (2 : ℚ) < secondsRunning crashHalfWorld := by
    norm_num [secondsRunning, crashHalfWorld, baseWorld]
  have hl : crashHalfWorld.launcherResult = Except.error JSError.crash := rfl
  rw [hl]
  simp [catchClassify, hlt]

/-- C3 (amended): a crash thrown 0.5 seconds after dispatch began is within
the 2-second grace threshold and is therefore fatal: the launch call
re-raises it rather than returning normally. -/
theorem C3_half_second_crash_fatal (w : World)
    (hd : (doStart w).2.dispatched = true)
    (hl : w.launcherResult = Except.error JSError.crash)
    (hs : secondsRunning w = 1 / 2) :
    (doStart w).1 = Except.error JSError.crash := by
  obtain ⟨sel, eff, heq, -, -⟩ := doStart_dispatched w hd
  rw [heq, dispatchWrapped_fst, hl]
  simp only [catchClassify, hs]
  norm_num

/-- C3 witness for the amended claim, at the 0.5-second crash world. -/
theorem C3_half_second_crash_fatal_witness :
    (doStart crashHalfWorld).2.dispatched = true ∧
    (doStart crashHalfWorld).1 = Except.error JSError.crash :=
  ⟨rfl, C3_half_second_crash_fatal crashHalfWorld rfl rfl
    (by norm_num [secondsRunning, crashHalfWorld, baseWorld])⟩

/-- C9: a `Cancelled` from the launch strategy, at any elapsed time, makes
the launch call return normally — no re-raised error — after the normal
cleanup (timer cleared once, lock stopped iff acquired, one final
`lastTouched` write). -/
theorem C9_cancelled_returns_normally (w : World)
    (hd : (doStart w).2.dispatched = true)
    (hl : w.launcherResult = Except.error JSError.cancelled) :
    (doStart w).1 = Except.ok () ∧
    (doStart w).2.timerCleared = 1 ∧
    (doStart w).2.stopCalls =
      (if w.preventDisplaySleep then [w.blockerId] else []) ∧
    (doStart w).2.finallyTouches = [w.finallyNow] := by
  obtain ⟨sel, eff, heq, -, -⟩ := doStart_dispatched w hd
  rw [heq, dispatchWrapped_fst, dispatchWrapped_snd, hl]
  by_cases hp : w.preventDisplaySleep <;> simp [catchClassify, hp]

/-- C9 witness: the cancelled-launch world. -/
theorem C9_cancelled_returns_normally_witness :
    (doStart cancelThrowWorld).2.dispatched = true ∧
    ((doStart cancelThrowWorld).1 = Except.ok () ∧
     (doStart cancelThrowWorld).2.timerCleared = 1 ∧
     (doStart cancelThrowWorld).2.stopCalls =
       (if cancelThrowWorld.preventDisplaySleep then [cancelThrowWorld.blockerId] else []) ∧
     (doStart cancelThrowWorld).2.finallyTouches = [cancelThrowWorld.finallyNow]) :=
  ⟨rfl, C9_cancelled_returns_normally cancelThrowWorld rfl rfl⟩

/-- C4: the configure task runs at most once per launch call; when the
readiness problem persists after the one repair (re-checked on the record
reloaded from the store), the call throws a fatal error whose `reason`
carries the problem token, with no further repair. -/
theorem C4_repair_at_most_once (w : World) :
    (doStart w).2.configureCount ≤ 1 ∧
    (∀ p p2 : List String, w.action ≠ "open" →
      caveProblem w.cave = some p →
      caveProblem w.configuredCave = some p2 →
      (doStart w).1 =
        Except.error (JSError.generic (couldNotConfigureMsg p2) (some p2)) ∧
      (doStart w).2.configureCount = 1) := by
  refine ⟨doStart_configureCount_le w, ?_⟩
  intro p p2 ha h1 h2
  simp [doStart, ha, caveAfterRepair, h1, h2]

/-- C4 witness: a native cave with no executables before and after repair. -/
theorem C4_repair_at_most_once_witness :
    (doStart stillBrokenWorld).2.configureCount ≤ 1 ∧
    ((doStart stillBrokenWorld).1 =
       Except.error (JSError.generic
         (couldNotConfigureMsg ["game.install.no_executables_found"])
         (some ["game.install.no_executables_found"])) ∧
     (doStart stillBrokenWorld).2.configureCount = 1) :=
  ⟨(C4_repair_at_most_once stillBrokenWorld).1,
   (C4_repair_at_most_once stillBrokenWorld).2 _ _ (by decide) rfl rfl⟩

/-- C10: when the readiness problem persists after the single repair, the
fatal readiness error is thrown before the manifest file is looked for or
read — even when a valid manifest is present. -/
theorem C10_readiness_error_precedes_manifest (w : World)
    (p p2 : List String)
    (ha : w.action ≠ "open")
    (h1 : caveProblem w.cave = some p)
    (h2 : caveProblem w.configuredCave = some p2)
    (_hman : w.hasManifest = true) :
    (doStart w).1 =
      Except.error (JSError.generic (couldNotConfigureMsg p2) (some p2)) ∧
    (doStart w).2.manifestProbe = false ∧
    (doStart w).2.manifestRead = false := by
  simp [doStart, ha, caveAfterRepair, h1, h2]

/-- C10 witness: the still-broken native cave with a valid manifest on disk. -/
theorem C10_readiness_error_precedes_manifest_witness :
    (doStart stillBrokenManifestWorld).1 =
      Except.error (JSError.generic
        (couldNotConfigureMsg ["game.install.no_executables_found"])
        (some ["game.install.no_executables_found"])) ∧
    (doStart stillBrokenManifestWorld).2.manifestProbe = false ∧
    (doStart stillBrokenManifestWorld).2.manifestRead = false :=
  C10_readiness_error_precedes_manifest stillBrokenManifestWorld _ _
    (by decide) rfl rfl rfl

/-- C7: each playtime tick reads the stored `secondsRun` (missing counts as
0), adds exactly the fixed 10-second interval, and writes back the sum with
a fresh `lastTouched`; two successive ticks therefore add exactly 20. -/
theorem C7_playtime_tick_accumulates (c : ICaveRecord) (t1 t2 : Nat) :
    UPDATE_PLAYTIME_INTERVAL = 10 ∧
    (playtimeTick t1 c).secondsRun = some (c.secondsRun.getD 0 + 10) ∧
    (playtimeTick t1 c).lastTouched = some t1 ∧
    (playtimeTick t2 (playtimeTick t1 c)).secondsRun =
      some (c.secondsRun.getD 0 + 20) ∧
    (playtimeTick t2 (playtimeTick t1 c)).lastTouched = some t2 := by
  refine ⟨rfl, ?_, rfl, ?_, rfl⟩ <;>
    simp [playtimeTick, UPDATE_PLAYTIME_INTERVAL] <;> omega

/-- C5 counterexample: the claim's rule 3 requires a literal `http://` or
`https://` prefix, but the code's regex `/^https?:/i` does not require the
slashes: on `"http:standalone"` (no matching extension, negative probe) the
code classifies `external` where the claim's rules give `shell`. -/
theorem C5_url_rule_counterexample :
    launchTypeForAction "linux"
      { linuxExecutable := false, macExecutable := false }
      "http:standalone" = "external" ∧
    claimedLaunchTypeForAction "linux"
      { linuxExecutable := false, macExecutable := false }
      "http:standalone" = "shell" := ⟨rfl, rfl⟩

/-- C5 (amended): the classifier checks its rules in order, first match
wins, and never raises: `.app/.exe/.bat/.sh` extension (case-insensitive)
→ native; `.htm/.html` → html; a case-insensitive `http:` or `https:`
prefix (the `//` is not required) → external; else native when the probe
reports a platform-matching executable; otherwise shell. -/
theorem C5_classifier_rules (platform : String) (sniff : SniffResult)
    (p : String) :
    launchTypeForAction platform sniff p =
      (if endsWithCI ".app" p || endsWithCI ".exe" p
          || endsWithCI ".bat" p || endsWithCI ".sh" p then "native"
       else if endsWithCI ".htm" p || endsWithCI ".html" p then "html"
       else if startsWithCI "http:" p || startsWithCI "https:" p then "external"
       else if (sniff.linuxExecutable && platform == "linux")
            || (sniff.macExecutable && platform == "osx") then "native"
       else "shell") := by
  simp [launchTypeForAction, nativeExtTest, htmlExtTest, urlPrefixTest]

/-- C6: a present, valid manifest with exactly one action selects it with
no prompt; with more than one action the choice prompt is shown and a user
cancellation makes the call return silently, with nothing dispatched. -/
theorem C6_manifest_action_selection (w : World) (m : IManifest)
    (ha : w.action ≠ "open")
    (hready : caveProblem (caveAfterRepair w) = none)
    (hman : w.hasManifest = true)
    (hparse : w.manifestParse = Except.ok m)
    (hvalid : validateManifest m = Except.ok ()) :
    (∀ a : IManifestAction, m.actions = [a] →
      (doStart w).2.promptShown = false ∧
      (doStart w).2.selectedAction =
        some { a with path := replaceFirst a.path "{{EXT}}" (appExt w.platform) }) ∧
    (1 < m.actions.length →
      w.modalResponse = ModalResponse.cancelledResponse →
      (doStart w).1 = Except.ok () ∧
      (doStart w).2.promptShown = true ∧
      (doStart w).2.dispatched = false) := by
  constructor
  · intro a hacts
    have hm : resolveManifestAction w = (ManifestOutcome.selected (some a), false) := by
      simp [resolveManifestAction, hman, hparse, hvalid, hacts]
    simp [doStart, ha, hready, hm, afterManifest_promptShown,
      afterManifest_selectedAction, processManifestAction]
  · intro hlen hcancel
    have hnameless : firstNamelessIndex m.actions = none :=
      firstNamelessFrom_none m.actions (validateManifest_ok_names m hvalid) 0
    have hm : resolveManifestAction w = (ManifestOutcome.cancelledByUser, true) := by
      simp [resolveManifestAction, hman, hparse, hvalid, hlen, hcancel, hnameless]
    simp [doStart, ha, hready, hm]

/-- C6 witness: the single-action and cancelled-two-action manifest worlds. -/
theorem C6_manifest_action_selection_witness :
    ((doStart singleManifestWorld).2.promptShown = false ∧
     (doStart singleManifestWorld).2.selectedAction =
       some { playAction with
         path := replaceFirst playAction.path "{{EXT}}" (appExt singleManifestWorld.platform) }) ∧
    ((doStart cancelModalWorld).1 = Except.ok () ∧
     (doStart cancelModalWorld).2.promptShown = true ∧
     (doStart cancelModalWorld).2.dispatched = false) :=
  ⟨(C6_manifest_action_selection singleManifestWorld singleManifest
      (by decide) rfl rfl rfl rfl).1 playAction rfl,
   (C6_manifest_action_selection cancelModalWorld twoManifest
      (by decide) rfl rfl rfl rfl).2 (by decide) rfl⟩

/-- C8: when the selected manifest action has a truthy scope, the run
environment handed to the dispatcher holds `ITCHIO_API_KEY` and
`ITCHIO_API_KEY_EXPIRES_AT` (and any environment the prepare step received
holds them too, i.e. they were written before prepare/launch ran); with a
falsy scope the dispatched environment is empty. -/
theorem C8_scoped_credentials (w : World) (a : IManifestAction)
    (hd : (doStart w).2.dispatched = true)
    (hsel : (doStart w).2.selectedAction = some a) :
    (jsStrFalsy a.scope = false →
      (doStart w).2.dispatchedEnv = some (scopedEnv w) ∧
      ∀ l, (doStart w).2.preparedEnv = some l → l = scopedEnv w) ∧
    (jsStrFalsy a.scope = true →
      (doStart w).2.dispatchedEnv = some []) := by
  obtain ⟨sel, eff, heq, hselE, hprep⟩ := doStart_dispatched w hd
  rw [heq, dispatchWrapped_snd] at hsel ⊢
  simp only [Effects.selectedAction] at hsel
  simp only [Effects.dispatchedEnv, Effects.preparedEnv]
  have hressel :
      (processManifestAction w (w.cave.launchType.getD "native") sel).selected = some a := by
    rw [← hselE]; exact hsel
  have henv := processManifestAction_env w _ sel a hressel
  constructor
  · intro hs
    constructor
    · rw [henv, hs]
      simp
    · intro l hl
      rw [hprep] at hl
      by_cases hn :
          (processManifestAction w (w.cave.launchType.getD "native") sel).launchType = "native"
      · rw [if_pos hn] at hl
        have := Option.some.inj hl
        rw [← this, henv, hs]
        simp
      · rw [if_neg hn] at hl
        exact absurd hl (by simp)
  · intro hs
    rw [henv, hs]
    simp

/-- C8 witness: the single-action manifest world, whose action has scope
`download`. -/
theorem C8_scoped_credentials_witness :
    (doStart singleManifestWorld).2.dispatched = true ∧
    (doStart singleManifestWorld).2.selectedAction = some playAction ∧
    (doStart singleManifestWorld).2.dispatchedEnv =
      some (scopedEnv singleManifestWorld) :=
  ⟨rfl, rfl,
   ((C8_scoped_credentials singleManifestWorld playAction rfl rfl).1 rfl).1⟩
